import Mathlib

/-!
Verification of the weather-bot script `main.py` (geocoding → forecast →
formatting → per-user daily scheduling).  The Python source is shallowly
embedded: pure helpers become Lean functions, the persisted user store and
the APScheduler job table become explicit state, outbound HTTP calls are
abstracted as input parameters (status code plus parsed payload), and a
Python exception escaping a handler is modelled as an explicit `threw`
flag / `Option.none` result.  Python floats are modelled as rationals
(`ℚ`); `round`, `%` and `int()` are given their exact Python semantics on
rationals (`pyRound` is round-half-to-even, `pyMod` follows the sign of the
divisor, `pyTrunc` truncates toward zero).  String literals are kept
byte-for-byte as they appear in the source file (the file holds
mojibake-encoded Russian text; the escapes below reproduce it exactly).
-/

/-- Python `round()` on a rational: round half to even, yielding an integer. -/
def pyRound (q : ℚ) : ℤ :=
  let f := ⌊q⌋
  let r := q - f
  if r < 1/2 then f
  else if 1/2 < r then f + 1
  else if Even f then f else f + 1

/-- Python `%` on numbers: `d % m = d - m * ⌊d / m⌋` (result has the divisor's sign). -/
def pyMod (d m : ℚ) : ℚ := d - m * ⌊d / m⌋

/-- Python `int()` applied to a number: truncation toward zero. -/
def pyTrunc (q : ℚ) : ℤ := if 0 ≤ q then ⌊q⌋ else ⌈q⌉

theorem pyMod_nonneg (d m : ℚ) (hm : 0 < m) : 0 ≤ pyMod d m := by
  have h := Int.fract_nonneg (d / m)
  have hfr : pyMod d m = m * Int.fract (d / m) := by
    unfold pyMod Int.fract
    field_simp
  rw [hfr]
  positivity

theorem pyTrunc_of_nonneg (q : ℚ) (h : 0 ≤ q) : pyTrunc q = ⌊q⌋ := by
  unfold pyTrunc
  exact if_pos h

-- ==================== wmo_to_emoji (main.py lines 87-98) ====================

/-- Mojibake of the "partly cloudy" pictogram: returned for `None`, codes 1-2,
and the final default branch of `wmo_to_emoji`. -/
def emojiPartly : String := "рџЊ¤пёЏ"

/-- Mojibake of the "clear" pictogram (code 0). -/
def emojiClear : String := "в\u0098ЂпёЏ"

/-- Mojibake of the "overcast" pictogram (code 3). -/
def emojiOvercast : String := "в\u0098ЃпёЏ"

/-- Mojibake of the "fog" pictogram (codes 45-48). -/
def emojiFog : String := "рџЊ«пёЏ"

/-- Mojibake of the "drizzle/rain" pictogram (codes 51-67). -/
def emojiRain : String := "рџЊ¦пёЏ"

/-- Mojibake of the "snow" pictogram (codes 71-77). -/
def emojiSnow : String := "рџЊЁпёЏ"

/-- Mojibake of the "rain showers" pictogram (codes 80-82). -/
def emojiShowers : String := "рџЊ§пёЏ"

/-- Mojibake of the "snow showers" pictogram (codes 85-86). -/
def emojiSnowShowers : String := "вќ„пёЏ"

/-- Mojibake of the "thunderstorm" pictogram (codes 95-99). -/
def emojiThunder : String := "в›€пёЏ"

/-- Embedding of `wmo_to_emoji`.  The argument is `Option ℚ` because the value
fed to it at the call site is a raw JSON number (a Python float) or `None`;
the comparisons in the source are numeric. -/
def wmo_to_emoji (wmo : Option ℚ) : String :=
  match wmo with
  | none => emojiPartly
  | some w =>
    if w = 0 then emojiClear
    else if w = 1 ∨ w = 2 then emojiPartly
    else if w = 3 then emojiOvercast
    else if 45 ≤ w ∧ w ≤ 48 then emojiFog
    else if 51 ≤ w ∧ w ≤ 67 then emojiRain
    else if 71 ≤ w ∧ w ≤ 77 then emojiSnow
    else if 80 ≤ w ∧ w ≤ 82 then emojiShowers
    else if 85 ≤ w ∧ w ≤ 86 then emojiSnowShowers
    else if 95 ≤ w ∧ w ≤ 99 then emojiThunder
    else emojiPartly

/-- Modelled from the spec's bucket list (claim C5): `{0}` clear, `{1,2}`
mostly clear, `{3}` overcast, `[45,48]` fog, `[51,67]` drizzle/rain,
`[71,77]` snow, `[80,82]` rain showers, `[85,86]` snow showers,
`[95,99]` thunderstorm, everything else (including a missing code) the
default "partly" icon.  Stated over `ℤ` ("every weather-code integer"). -/
def wmoBucketSpec (wmo : Option ℤ) : String :=
  match wmo with
  | none => emojiPartly
  | some w =>
    if w = 0 then emojiClear
    else if w = 1 ∨ w = 2 then emojiPartly
    else if w = 3 then emojiOvercast
    else if 45 ≤ w ∧ w ≤ 48 then emojiFog
    else if 51 ≤ w ∧ w ≤ 67 then emojiRain
    else if 71 ≤ w ∧ w ≤ 77 then emojiSnow
    else if 80 ≤ w ∧ w ≤ 82 then emojiShowers
    else if 85 ≤ w ∧ w ≤ 86 then emojiSnowShowers
    else if 95 ≤ w ∧ w ≤ 99 then emojiThunder
    else emojiPartly

-- ================ format_wind_dir_full (main.py lines 100-110) ==============

/-- Mojibake of the fixed "no data" string returned for a missing direction. -/
def windNoData : String :=
  "РќРµС‚ РґР°РЅРЅС‹С…"

/-- The fixed 16-entry compass-name table of `format_wind_dir_full`
(mojibake strings, in source order starting at north). -/
def windNames : List String :=
  [ "РЎРµРІРµСЂ"
  , "РЎРµРІРµСЂРѕвЂ‘СЃРµРІРµСЂРѕвЂ‘РІРѕСЃС‚РѕРє"
  , "РЎРµРІРµСЂРѕвЂ‘РІРѕСЃС‚РѕРє"
  , "Р’РѕСЃС‚РѕРєвЂ‘СЃРµРІРµСЂРѕвЂ‘РІРѕСЃС‚РѕРє"
  , "Р’РѕСЃС‚РѕРє"
  , "Р’РѕСЃС‚РѕРєвЂ‘СЋРіРѕвЂ‘РІРѕСЃС‚РѕРє"
  , "Р®РіРѕвЂ‘РІРѕСЃС‚РѕРє"
  , "Р®РіРѕвЂ‘СЋРіРѕвЂ‘РІРѕСЃС‚РѕРє"
  , "Р®Рі"
  , "Р®РіРѕвЂ‘СЋРіРѕвЂ‘Р·Р°РїР°Рґ"
  , "Р®РіРѕвЂ‘Р·Р°РїР°Рґ"
  , "Р—Р°РїР°РґвЂ‘СЋРіРѕвЂ‘Р·Р°РїР°Рґ"
  , "Р—Р°РїР°Рґ"
  , "Р—Р°РїР°РґвЂ‘СЃРµРІРµСЂРѕвЂ‘Р·Р°РїР°Рґ"
  , "РЎРµРІРµСЂРѕвЂ‘Р·Р°РїР°Рґ"
  , "РЎРµРІРµСЂРѕвЂ‘СЃРµРІРµСЂРѕвЂ‘Р·Р°РїР°Рґ" ]

/-- Embedding of `format_wind_dir_full`:
`i = int((deg % 360) / 22.5 + 0.5) % 16; return names[i]`.
The `%` on the int result is Python integer modulo (`Int.emod`, non-negative
for the positive divisor 16), so the `.toNat` conversion is lossless. -/
def format_wind_dir_full (deg : Option ℚ) : String :=
  match deg with
  | none => windNoData
  | some d =>
    let i : ℕ := ((pyTrunc (pyMod d 360 / 22.5 + 0.5)) % 16).toNat
    windNames.getD i ""

/-- At each exact compass boundary `22.5 * k` (for `k < 16`), the wind
formatter selects entry `k` of the table. -/
theorem wind_boundary (k : ℕ) (hk : k < 16) :
    format_wind_dir_full (some (22.5 * k)) = windNames.getD k "" := by
  have hk16 : (k : ℚ) < 16 := by exact_mod_cast hk
  have hmod : pyMod (22.5 * k) 360 = 22.5 * k := by
    have hfl : ⌊(22.5 * (k : ℚ)) / 360⌋ = 0 := by
      rw [Int.floor_eq_zero_iff]
      constructor
      · positivity
      · show (22.5 * (k : ℚ)) / 360 < 1
        rw [div_lt_one (by norm_num)]
        nlinarith
    unfold pyMod
    rw [hfl]
    push_cast
    ring
  have hdiv : (22.5 * (k : ℚ)) / 22.5 = (k : ℚ) := by
    field_simp
  have hidx : pyTrunc ((k : ℚ) + 0.5) = (k : ℤ) := by
    rw [pyTrunc_of_nonneg _ (by positivity), Int.floor_eq_iff]
    constructor
    · push_cast
      linarith
    · push_cast
      linarith
  show windNames.getD ((pyTrunc (pyMod (22.5 * k) 360 / 22.5 + 0.5) % 16).toNat) "" = _
  rw [hmod, hdiv, hidx]
  have hk' : (k : ℤ) % 16 = (k : ℤ) := Int.emod_eq_of_lt (by positivity) (by exact_mod_cast hk)
  rw [hk']
  simp

-- =========================== Claims C5 and C6 ===============================

/-- C5: for every weather-code integer (and for a missing code) the
icon-bucket function `wmo_to_emoji` returns a value, and its buckets are
exactly the ones listed in the spec: `{0}` clear, `{1,2}` mostly clear,
`{3}` overcast, `[45,48]` fog, `[51,67]` drizzle/rain, `[71,77]` snow,
`[80,82]` rain showers, `[85,86]` snow showers, `[95,99]` thunderstorm,
and everything else (including `None`) the default "partly" icon
(`wmoBucketSpec` is the bucket list transcribed from the spec). -/
theorem C5_wmo_buckets (w : ℤ) :
    wmo_to_emoji (some (w : ℚ)) = wmoBucketSpec (some w) ∧
    wmo_to_emoji none = wmoBucketSpec none := by
  constructor
  · show (if (w : ℚ) = 0 then emojiClear else _) = _
    unfold wmoBucketSpec
    norm_cast
  · rfl

/-- C6: for every degree value `d`, `format_wind_dir_full` selects compass
name number `round((d mod 360) / 22.5) mod 16` from the fixed 16-name table
(Mathlib's `round` is round-half-up, exactly `int(x + 0.5)` for the
non-negative argument produced here); each of the 16 boundary values
0°, 22.5°, …, 337.5° maps to its own entry of the table, the entries are
pairwise distinct, and a `None` input yields the fixed "no data" string. -/
theorem C6_wind_dir (d : ℚ) :
    format_wind_dir_full (some d) =
      windNames.getD ((round (pyMod d 360 / 22.5) % 16).toNat) "" ∧
    format_wind_dir_full none = windNoData ∧
    (List.range 16).map (fun (k : ℕ) => format_wind_dir_full (some (22.5 * (k : ℚ)))) = windNames ∧
    windNames.Nodup := by
  have hbound :
      (List.range 16).map (fun (k : ℕ) => format_wind_dir_full (some (22.5 * (k : ℚ)))) = windNames := by
    have h1 : (List.range 16).map (fun (k : ℕ) => format_wind_dir_full (some (22.5 * (k : ℚ))))
        = (List.range 16).map (fun k => windNames.getD k "") := by
      apply List.map_congr_left
      intro a ha
      exact wind_boundary a (List.mem_range.mp ha)
    rw [h1]
    decide
  refine ⟨?_, rfl, hbound, by decide⟩
  show windNames.getD ((pyTrunc (pyMod d 360 / 22.5 + 0.5) % 16).toNat) "" = _
  have h0 : (0 : ℚ) ≤ pyMod d 360 / 22.5 :=
    div_nonneg (pyMod_nonneg d 360 (by norm_num)) (by norm_num)
  have ht : pyTrunc (pyMod d 360 / 22.5 + 0.5) = round (pyMod d 360 / 22.5) := by
    rw [pyTrunc_of_nonneg _ (by linarith), round_eq]
    norm_num
  rw [ht]

-- ================ format_forecast_text (main.py lines 121-137) ==============

/-- One day's forecast summary as assembled by `fetch_tomorrow_forecast`
(numeric JSON values as rationals, `none` for Python `None`). -/
structure ForecastRecord where
  date : String
  tmax : Option ℚ
  tmin : Option ℚ
  precip_mm : Option ℚ
  precip_prob : Option ℚ
  wind_max : Option ℚ
  wind_dir : Option ℚ
  weathercode : Option ℚ
  sunrise : Option String
  sunset : Option String
  clouds : Option ℚ
deriving DecidableEq

/-- Abstraction of Python `str()` on a float value (used for the raw `{prob}`
and `{clouds}` interpolations): an integral value prints with a trailing
`.0`, anything else by its exact rational notation.  No claim inspects the
digits this produces. -/
def pyStrNum (q : ℚ) : String :=
  if q.den = 1 then toString q.num ++ ".0" else toString q

/-- Python `f"{x:.1f}"`: fixed-point rendering with one decimal digit,
rounding half to even at the retained digit. -/
def formatFixed1 (q : ℚ) : String :=
  let n : ℤ := pyRound (q * 10)
  let a : ℕ := n.natAbs
  (if n < 0 then "-" else "") ++ toString (a / 10) ++ "." ++ toString (a % 10)

/-- Python `str()` on an optional string: `None` prints as the literal
string `"None"` inside an f-string. -/
def pyStrOfOptStr : Option String → String
  | none => "None"
  | some s => s

/-- Mojibake literals of the fixed line fragments of `format_forecast_text`
(em-dash placeholder lines are the exact source literals). -/
def headPre : String := " РџСЂРѕРіРЅРѕР· РЅР° Р·Р°РІС‚СЂР° РґР»СЏ *"

def headMid : String := "* ("

def headSuf : String := ")."

def tempPre : String := "РўРµРјРїРµСЂР°С‚СѓСЂР°: РѕС‚ "

def tempMid : String := "В° РґРѕ "

def tempSuf : String := "В°C"

def cloudsPre : String := "РћР±Р»Р°С‡РЅРѕСЃС‚СЊ: "

def cloudsDashLine : String := "РћР±Р»Р°С‡РЅРѕСЃС‚СЊ: вЂ”"

def precipPre : String := "РћСЃР°РґРєРё: "

def precipSuf : String := " РјРј"

def precipDashLine : String := "РћСЃР°РґРєРё: вЂ”"

def probPre : String := "Р’РµСЂРѕСЏС‚РЅРѕСЃС‚СЊ РѕСЃР°РґРєРѕРІ: "

def probDashLine : String := "Р’РµСЂРѕСЏС‚РЅРѕСЃС‚СЊ РѕСЃР°РґРєРѕРІ: вЂ”"

def windPre : String := "Р’РµС‚РµСЂ: РґРѕ "

def windMid : String := " Рј/СЃ, РЅР°РїСЂР°РІР»РµРЅРёРµ: "

def windDashLine : String := "Р’РµС‚РµСЂ: вЂ”"

def sunPre : String := "Р’РѕСЃС…РѕРґ: "

def sunMid : String := "  Р—Р°РєР°С‚: "

/-- Embedding of `format_forecast_text`.  `round(f['tmin'])` /
`round(f['tmax'])` raise `TypeError` when the field is `None`; the raised
exception is modelled by the `none` result (the `tz` argument is unused in
the source as well).  All other `None` fields are guarded in the source and
render as the fixed dash lines, except `sunrise`/`sunset`, which are
interpolated unguarded (Python prints `None`). -/
def format_forecast_text (city_label : String) (tz : String) (f : ForecastRecord) :
    Option String :=
  match f.tmin, f.tmax with
  | some tmin, some tmax =>
    let emoji := wmo_to_emoji f.weathercode
    let wind_dir := format_wind_dir_full f.wind_dir
    let precip_line := match f.precip_mm with
      | some precip => precipPre ++ formatFixed1 precip ++ precipSuf
      | none => precipDashLine
    let prob_line := match f.precip_prob with
      | some prob => probPre ++ pyStrNum prob ++ "%"
      | none => probDashLine
    some (String.intercalate "\n"
      [ emoji ++ headPre ++ city_label ++ headMid ++ f.date ++ headSuf
      , tempPre ++ toString (pyRound tmin) ++ tempMid ++ toString (pyRound tmax) ++ tempSuf
      , (match f.clouds with
         | some c => cloudsPre ++ pyStrNum c ++ "%"
         | none => cloudsDashLine)
      , precip_line
      , prob_line
      , (match f.wind_max with
         | some wmax => windPre ++ toString (pyRound wmax) ++ windMid ++ wind_dir
         | none => windDashLine)
      , sunPre ++ pyStrOfOptStr f.sunrise ++ sunMid ++ pyStrOfOptStr f.sunset ])
  | _, _ => none

-- =============================== Claim C1 ===================================

/-- A record whose `tmin` is `None` (everything else well-formed): on it the
source formatter evaluates `round(None)` and raises. -/
def c1Rec : ForecastRecord :=
  { date := "2025-06-01", tmax := some 10, tmin := none, precip_mm := some 0
  , precip_prob := none, wind_max := none, wind_dir := none, weathercode := none
  , sunrise := none, sunset := none, clouds := none }

/-- C1 counterexample: the formatter is not total — with `tmin = None` it
throws (`round(None)` raises `TypeError`, modelled by the `none` result)
instead of substituting a placeholder. -/
theorem C1_counterexample : format_forecast_text "Minsk" "UTC" c1Rec = none := rfl

/-- C1 (amended): for every forecast record whose `tmin` and `tmax` are both
non-`None`, `format_forecast_text` never throws and renders all seven lines
in fixed order — temperatures rounded to whole degrees (Python
half-to-even), precipitation to one decimal place, and an explicit dash
placeholder for a `None` clouds / precipitation / probability / wind field —
while a `None` `sunrise`/`sunset` is interpolated as the literal string
`"None"`; when `tmin` or `tmax` is `None` the formatter raises
(`C1_counterexample`). -/
theorem C1_format_amended (label tzs : String) (f : ForecastRecord) (a b : ℚ)
    (ha : f.tmin = some a) (hb : f.tmax = some b) :
    format_forecast_text label tzs f =
      some (String.intercalate "\n"
        [ wmo_to_emoji f.weathercode ++ headPre ++ label ++ headMid ++ f.date ++ headSuf
        , tempPre ++ toString (pyRound a) ++ tempMid ++ toString (pyRound b) ++ tempSuf
        , f.clouds.elim cloudsDashLine (fun c => cloudsPre ++ pyStrNum c ++ "%")
        , f.precip_mm.elim precipDashLine (fun p => precipPre ++ formatFixed1 p ++ precipSuf)
        , f.precip_prob.elim probDashLine (fun p => probPre ++ pyStrNum p ++ "%")
        , f.wind_max.elim windDashLine
            (fun w_ => windPre ++ toString (pyRound w_) ++ windMid ++ format_wind_dir_full f.wind_dir)
        , sunPre ++ pyStrOfOptStr f.sunrise ++ sunMid ++ pyStrOfOptStr f.sunset ]) := by
  obtain ⟨dt, tmx, tmn, pm, pp, wm, wd, wc, sr, ss, cl⟩ := f
  simp only at ha hb
  subst ha hb
  cases cl <;> cases pm <;> cases pp <;> cases wm <;> rfl

/-- A well-formed record used to instantiate `C1_format_amended`. -/
def c1RecB : ForecastRecord :=
  { date := "2025-06-01", tmax := some 10, tmin := some (7/2), precip_mm := some 0
  , precip_prob := none, wind_max := none, wind_dir := none, weathercode := none
  , sunrise := none, sunset := none, clouds := none }

/-- Witness for `C1_format_amended` at a concrete record. -/
theorem C1_format_witness :
    format_forecast_text "Minsk" "UTC" c1RecB =
      some (String.intercalate "\n"
        [ wmo_to_emoji c1RecB.weathercode ++ headPre ++ "Minsk" ++ headMid ++
            c1RecB.date ++ headSuf
        , tempPre ++ toString (pyRound (7/2)) ++ tempMid ++ toString (pyRound 10) ++ tempSuf
        , c1RecB.clouds.elim cloudsDashLine (fun c => cloudsPre ++ pyStrNum c ++ "%")
        , c1RecB.precip_mm.elim precipDashLine
            (fun p => precipPre ++ formatFixed1 p ++ precipSuf)
        , c1RecB.precip_prob.elim probDashLine (fun p => probPre ++ pyStrNum p ++ "%")
        , c1RecB.wind_max.elim windDashLine
            (fun w_ => windPre ++ toString (pyRound w_) ++ windMid ++
              format_wind_dir_full c1RecB.wind_dir)
        , sunPre ++ pyStrOfOptStr c1RecB.sunrise ++ sunMid ++ pyStrOfOptStr c1RecB.sunset ]) :=
  C1_format_amended "Minsk" "UTC" c1RecB (7/2) 10 rfl rfl

-- ============= fetch_tomorrow_forecast (main.py lines 149-186) ==============

/-- The provider's `daily` object: each requested field is either absent
(`none`, also covering a non-list value, which the source's `isinstance`
check treats the same way) or a parallel array.  Numeric arrays are
rational-valued, `time`/`sunrise`/`sunset` are strings. -/
structure DailyPayload where
  time : Option (List String) := none
  temperature_2m_max : Option (List ℚ) := none
  temperature_2m_min : Option (List ℚ) := none
  precipitation_sum : Option (List ℚ) := none
  precipitation_probability_max : Option (List ℚ) := none
  windspeed_10m_max : Option (List ℚ) := none
  winddirection_10m_dominant : Option (List ℚ) := none
  weathercode : Option (List ℚ) := none
  sunrise : Option (List String) := none
  sunset : Option (List String) := none
  cloudcover_mean : Option (List ℚ) := none
deriving DecidableEq

/-- `data.get("daily") or {}` for a missing/falsy `daily` object. -/
def emptyDaily : DailyPayload := {}

/-- The local `pick(key, default)` helper on a numeric array:
`arr[idx] if isinstance(arr, list) and len(arr) > idx else default`. -/
def pickQ (arr : Option (List ℚ)) (idx : ℕ) (dflt : Option ℚ) : Option ℚ :=
  match arr with
  | some l => if idx < l.length then l.get? idx else dflt
  | none => dflt

/-- `pick` on a string array. -/
def pickS (arr : Option (List String)) (idx : ℕ) (dflt : Option String) : Option String :=
  match arr with
  | some l => if idx < l.length then l.get? idx else dflt
  | none => dflt

/-- The record literal returned by `fetch_tomorrow_forecast` at a selected
index (source lines 174-186): every field defaults to `None` except
`precipitation_sum`, whose `pick` default is the number `0`. -/
def recordAt (daily : DailyPayload) (idx : ℕ) (dates : List String) : ForecastRecord :=
  { date := dates.getD idx ""
  , tmax := pickQ daily.temperature_2m_max idx none
  , tmin := pickQ daily.temperature_2m_min idx none
  , precip_mm := pickQ daily.precipitation_sum idx (some 0)
  , precip_prob := pickQ daily.precipitation_probability_max idx none
  , wind_max := pickQ daily.windspeed_10m_max idx none
  , wind_dir := pickQ daily.winddirection_10m_dominant idx none
  , weathercode := pickQ daily.weathercode idx none
  , sunrise := pickS daily.sunrise idx none
  , sunset := pickS daily.sunset idx none
  , clouds := pickQ daily.cloudcover_mean idx none }

/-- Embedding of `fetch_tomorrow_forecast`.  The HTTP exchange is abstracted
as the transport status plus the parsed response: `data = none` models a
response without a (truthy) `daily` object.  A non-200 status or an
empty/missing date list yields `none` ("no forecast available"); otherwise
`idx = 1 if len(dates) > 1 else 0` selects the day. -/
def fetch_tomorrow_forecast (status : ℕ) (data : Option DailyPayload) :
    Option ForecastRecord :=
  if status ≠ 200 then none
  else
    let daily := data.getD emptyDaily
    let dates := daily.time.getD []
    if dates.isEmpty then none
    else
      let idx := if 1 < dates.length then 1 else 0
      some (recordAt daily idx dates)

/-- "Missing or too short to contain the selected index" for a numeric field. -/
def missingOrShortQ (arr : Option (List ℚ)) (idx : ℕ) : Prop :=
  ∀ l, arr = some l → l.length ≤ idx

/-- "Missing or too short to contain the selected index" for a string field. -/
def missingOrShortS (arr : Option (List String)) (idx : ℕ) : Prop :=
  ∀ l, arr = some l → l.length ≤ idx

theorem pickQ_default (arr : Option (List ℚ)) (idx : ℕ) (dflt : Option ℚ)
    (h : missingOrShortQ arr idx) : pickQ arr idx dflt = dflt := by
  cases arr with
  | none => rfl
  | some l =>
    have hle := h l rfl
    show (if idx < l.length then l.get? idx else dflt) = dflt
    rw [if_neg (by omega)]

theorem pickS_default (arr : Option (List String)) (idx : ℕ) (dflt : Option String)
    (h : missingOrShortS arr idx) : pickS arr idx dflt = dflt := by
  cases arr with
  | none => rfl
  | some l =>
    have hle := h l rfl
    show (if idx < l.length then l.get? idx else dflt) = dflt
    rw [if_neg (by omega)]

-- =========================== Claims C3 and C4 ===============================

/-- C4: forecast day selection.  A non-success status yields `none`; with
status 200, an empty (or missing) date list yields `none`, two or more
dates select array index 1, and exactly one date selects index 0 — the call
never fails outright on a short response. -/
theorem C4_day_selection (status : ℕ) (data : Option DailyPayload) :
    (status ≠ 200 → fetch_tomorrow_forecast status data = none) ∧
    ((data.getD emptyDaily).time.getD [] = [] →
      fetch_tomorrow_forecast 200 data = none) ∧
    (2 ≤ ((data.getD emptyDaily).time.getD []).length →
      fetch_tomorrow_forecast 200 data =
        some (recordAt (data.getD emptyDaily) 1 ((data.getD emptyDaily).time.getD []))) ∧
    (((data.getD emptyDaily).time.getD []).length = 1 →
      fetch_tomorrow_forecast 200 data =
        some (recordAt (data.getD emptyDaily) 0 ((data.getD emptyDaily).time.getD []))) := by
  refine ⟨fun h => by simp [fetch_tomorrow_forecast, h], ?_, ?_, ?_⟩
  · intro h
    simp [fetch_tomorrow_forecast, h]
  · intro h
    have hne : ¬ ((data.getD emptyDaily).time.getD []).isEmpty := by
      rw [List.isEmpty_iff]
      intro hc
      rw [hc] at h
      simp at h
    simp only [fetch_tomorrow_forecast, if_neg (by norm_num : ¬ (200 : ℕ) ≠ 200)]
    rw [if_neg (by exact hne), if_pos (by omega)]
  · intro h
    have hne : ¬ ((data.getD emptyDaily).time.getD []).isEmpty := by
      rw [List.isEmpty_iff]
      intro hc
      rw [hc] at h
      simp at h
    simp only [fetch_tomorrow_forecast, if_neg (by norm_num : ¬ (200 : ℕ) ≠ 200)]
    rw [if_neg (by exact hne), if_neg (by omega)]

/-- Concrete two-day payload used to instantiate `C4_day_selection`. -/
def c4Payload : DailyPayload :=
  { time := some ["2025-06-01", "2025-06-02"]
  , temperature_2m_max := some [9, 10]
  , temperature_2m_min := some [3, 4] }

/-- Witness for `C4_day_selection` on a concrete two-day payload. -/
theorem C4_day_selection_witness :
    fetch_tomorrow_forecast 7 (some c4Payload) = none ∧
    fetch_tomorrow_forecast 200 (some c4Payload) =
      some (recordAt c4Payload 1 ["2025-06-01", "2025-06-02"]) := by
  constructor
  · exact (C4_day_selection 7 (some c4Payload)).1 (by norm_num)
  · exact (C4_day_selection 200 (some c4Payload)).2.2.1 (by decide)

/-- C3 (amended): with a 200 response and a non-empty date list, every
requested daily field whose array is missing or too short to contain the
selected index comes back as `None` in the output record — except
`precipitation_sum`, whose coded fallback is the number `0` rather than
`None` (`C3_counterexample`). -/
theorem C3_defensive_amended (data : Option DailyPayload) (r : ForecastRecord)
    (h : fetch_tomorrow_forecast 200 data = some r) :
    (missingOrShortQ (data.getD emptyDaily).temperature_2m_max
        (if 1 < ((data.getD emptyDaily).time.getD []).length then 1 else 0) → r.tmax = none) ∧
    (missingOrShortQ (data.getD emptyDaily).temperature_2m_min
        (if 1 < ((data.getD emptyDaily).time.getD []).length then 1 else 0) → r.tmin = none) ∧
    (missingOrShortQ (data.getD emptyDaily).precipitation_sum
        (if 1 < ((data.getD emptyDaily).time.getD []).length then 1 else 0) →
        r.precip_mm = some 0) ∧
    (missingOrShortQ (data.getD emptyDaily).precipitation_probability_max
        (if 1 < ((data.getD emptyDaily).time.getD []).length then 1 else 0) →
        r.precip_prob = none) ∧
    (missingOrShortQ (data.getD emptyDaily).windspeed_10m_max
        (if 1 < ((data.getD emptyDaily).time.getD []).length then 1 else 0) →
        r.wind_max = none) ∧
    (missingOrShortQ (data.getD emptyDaily).winddirection_10m_dominant
        (if 1 < ((data.getD emptyDaily).time.getD []).length then 1 else 0) →
        r.wind_dir = none) ∧
    (missingOrShortQ (data.getD emptyDaily).weathercode
        (if 1 < ((data.getD emptyDaily).time.getD []).length then 1 else 0) →
        r.weathercode = none) ∧
    (missingOrShortS (data.getD emptyDaily).sunrise
        (if 1 < ((data.getD emptyDaily).time.getD []).length then 1 else 0) →
        r.sunrise = none) ∧
    (missingOrShortS (data.getD emptyDaily).sunset
        (if 1 < ((data.getD emptyDaily).time.getD []).length then 1 else 0) →
        r.sunset = none) ∧
    (missingOrShortQ (data.getD emptyDaily).cloudcover_mean
        (if 1 < ((data.getD emptyDaily).time.getD []).length then 1 else 0) →
        r.clouds = none) := by
  have hr : r = recordAt (data.getD emptyDaily)
      (if 1 < ((data.getD emptyDaily).time.getD []).length then 1 else 0)
      ((data.getD emptyDaily).time.getD []) := by
    by_cases he : ((data.getD emptyDaily).time.getD []).isEmpty
    · simp [fetch_tomorrow_forecast, he] at h
    · simp only [fetch_tomorrow_forecast, if_neg (by norm_num : ¬ (200 : ℕ) ≠ 200),
        if_neg he, Option.some.injEq] at h
      exact h.symm
  subst hr
  refine ⟨fun hm => pickQ_default _ _ _ hm, fun hm => pickQ_default _ _ _ hm,
    fun hm => pickQ_default _ _ _ hm, fun hm => pickQ_default _ _ _ hm,
    fun hm => pickQ_default _ _ _ hm, fun hm => pickQ_default _ _ _ hm,
    fun hm => pickQ_default _ _ _ hm, fun hm => pickS_default _ _ _ hm,
    fun hm => pickS_default _ _ _ hm, fun hm => pickQ_default _ _ _ hm⟩

/-- A two-day payload carrying only the date list: every data array is
missing. -/
def c3Payload : DailyPayload := { time := some ["2025-06-01", "2025-06-02"] }

/-- C3 counterexample: with `precipitation_sum` missing from the payload,
the output's `precip_mm` is the substituted number `0`, not `None`. -/
theorem C3_counterexample :
    (fetch_tomorrow_forecast 200 (some c3Payload)).map ForecastRecord.precip_mm =
        some (some 0) ∧
    (fetch_tomorrow_forecast 200 (some c3Payload)).map ForecastRecord.precip_mm ≠
        some none := by
  constructor
  · rfl
  · intro hc
    rw [show (fetch_tomorrow_forecast 200 (some c3Payload)).map ForecastRecord.precip_mm
        = some (some 0) from rfl] at hc
    exact Option.noConfusion (Option.some.inj hc)

/-- Witness for `C3_defensive_amended` on the dates-only payload. -/
theorem C3_defensive_witness :
    (recordAt c3Payload 1 ["2025-06-01", "2025-06-02"]).tmax = none ∧
    (recordAt c3Payload 1 ["2025-06-01", "2025-06-02"]).precip_mm = some 0 := by
  have h := C3_defensive_amended (some c3Payload)
    (recordAt c3Payload 1 ["2025-06-01", "2025-06-02"]) rfl
  refine ⟨?_, ?_⟩
  · exact h.1 (by intro l hl; cases hl)
  · exact h.2.2.1 (by intro l hl; cases hl)

-- ==================== Python string helpers (char-list based) ===============

/-- Split a character list at every separator character, keeping empty
pieces: the semantics of Python `s.split(sep)` for a one-character `sep`. -/
def splitOnPred : List Char → (Char → Bool) → List (List Char)
  | [], _ => [[]]
  | c :: rest, p =>
    let r := splitOnPred rest p
    if p c then [] :: r
    else
      match r with
      | [] => [[c]]
      | x :: xs => (c :: x) :: xs

/-- Python `s.strip()`: drop whitespace from both ends. -/
def pyStrip (s : String) : String :=
  String.mk (((s.toList.dropWhile Char.isWhitespace).reverse.dropWhile
    Char.isWhitespace).reverse)

/-- Python `s.split()` with no argument: split on whitespace runs, dropping
empty pieces. -/
def pySplitWS (s : String) : List String :=
  ((splitOnPred s.toList Char.isWhitespace).map String.mk).filter (fun t => t ≠ "")

/-- Python `sep in s` for a one-character `sep`. -/
def pyContainsChar (s : String) (c : Char) : Bool := s.toList.contains c

/-- Python `s.split(":")`. -/
def pySplitColon (s : String) : List String :=
  (splitOnPred s.toList (fun c => c = ':')).map String.mk

/-- Python `s.split(":", 1)`: split at the first colon only. -/
def pySplitColon1 (s : String) : List String :=
  match pySplitColon s with
  | [] => []
  | x :: rest => if rest.isEmpty then [x] else [x, String.intercalate ":" rest]

/-- Decimal value of a non-empty all-digit character list. -/
def digitsVal (cs : List Char) : Option ℕ :=
  if cs.isEmpty then none
  else if cs.all Char.isDigit then
    some (cs.foldl (fun a c => 10 * a + (c.toNat - 48)) 0)
  else none

/-- Python `int(s)` on a decimal string: optional surrounding whitespace and
sign, then digits; anything else raises (`none`). -/
def pyInt (s : String) : Option ℤ :=
  match (pyStrip s).toList with
  | '-' :: rest => (digitsVal rest).map (fun n => -(n : ℤ))
  | '+' :: rest => (digitsVal rest).map (fun n => (n : ℤ))
  | cs => (digitsVal cs).map (fun n => (n : ℤ))

-- ================== persisted user store (main.py lines 54-83) ==============

/-- One persisted user profile: `{ city_label, lat, lon, tz, daily? }`.
A field that is absent from the JSON object is `none`; `daily` holds the
`HH:MM` string of `{"daily": {"time": t}}`. -/
structure UserProfile where
  city_label : Option String := none
  lat : Option ℚ := none
  lon : Option ℚ := none
  tz : Option String := none
  daily : Option String := none
deriving DecidableEq

/-- The `STATE["users"]` mapping, keyed by user id. -/
abbrev UserStore := ℕ → Option UserProfile

/-- The empty store (`{"users": {}}`). -/
def emptyStore : UserStore := fun _ => none

/-- A freshly created empty profile (`{}`). -/
def emptyProfile : UserProfile := {}

/-- `users[str(user_id)] = p`. -/
def setUser (st : UserStore) (uid : ℕ) (p : UserProfile) : UserStore :=
  fun u => if u = uid then some p else st u

/-- Embedding of `ensure_user`: look the user up and register a fresh empty
profile when the entry is absent or falsy (an empty dict). -/
def ensure_user (st : UserStore) (uid : ℕ) : UserStore × UserProfile :=
  match st uid with
  | some p =>
    if p = emptyProfile then (setUser st uid emptyProfile, emptyProfile) else (st, p)
  | none => (setUser st uid emptyProfile, emptyProfile)

/-- Truthiness of `user.get("lat")`: `None` and `0.0` are both falsy, so a
profile on the equator counts as "no city chosen". -/
def latTruthy (p : UserProfile) : Bool :=
  match p.lat with
  | none => false
  | some q => decide (q ≠ 0)

-- ============== scheduler job table (main.py lines 36, 232-245) =============

/-- One APScheduler cron job as installed by `schedule_daily`: the `HH:MM`
source string, the parsed hour/minute of its `CronTrigger`, and the
timezone it fires in. -/
structure JobInfo where
  timeStr : String
  hour : ℤ
  minute : ℤ
  tz : String
deriving DecidableEq

/-- The scheduler's job table; APScheduler keys jobs by their unique id
(adding with `replace_existing=True` replaces the entry with that id). -/
structure SchedState where
  jobs : List (String × JobInfo)
deriving DecidableEq

def emptySched : SchedState := ⟨[]⟩

/-- `job_id = f"daily_{user_id}"`. -/
def jobId (uid : ℕ) : String := "daily_" ++ toString uid

/-- `scheduler.get_job(job_id)`. -/
def get_job (s : SchedState) (id : String) : Option JobInfo :=
  (s.jobs.find? (fun j => j.1 = id)).map (fun j => j.2)

/-- `job.remove()` for the job stored under `id` (ids are unique, so
removing by id removes that job). -/
def remove_job (s : SchedState) (id : String) : SchedState :=
  ⟨s.jobs.filter (fun j => j.1 ≠ id)⟩

/-- `scheduler.add_job(..., id=job_id, replace_existing=True)`. -/
def add_job (s : SchedState) (id : String) (j : JobInfo) : SchedState :=
  ⟨(remove_job s id).jobs ++ [(id, j)]⟩

/-- `hour, minute = map(int, time_str.split(":"))`: exactly two pieces, each
parsed by `int()`; anything else raises `ValueError` (`none`). -/
def parseHHMM (t : String) : Option (ℤ × ℤ) :=
  match pySplitColon t with
  | [h, m] =>
    match pyInt h, pyInt m with
    | some hv, some mv => some (hv, mv)
    | _, _ => none
  | _ => none

/-- `CronTrigger(hour=h, minute=m, ...)` accepts only in-range field values,
raising `ValueError` otherwise. -/
def cronValid (h m : ℤ) : Bool :=
  decide (0 ≤ h ∧ h ≤ 23 ∧ 0 ≤ m ∧ m ≤ 59)

/-- Embedding of `schedule_daily`.  The existing job for the user's key is
removed first; then the time string is parsed and the cron trigger built —
both may raise (`true` in the second component), in which case the removal
has already happened but no new job is installed. -/
def schedule_daily (s : SchedState) (uid : ℕ) (time_str tzv : String) :
    SchedState × Bool :=
  let s1 := remove_job s (jobId uid)
  match parseHHMM time_str with
  | none => (s1, true)
  | some (h, m) =>
    if cronValid h m then (add_job s1 (jobId uid) ⟨time_str, h, m, tzv⟩, false)
    else (s1, true)

/-- Embedding of `cancel_daily`: remove the user's job if present; a missing
job is a no-op. -/
def cancel_daily (s : SchedState) (uid : ℕ) : SchedState :=
  match get_job s (jobId uid) with
  | some _ => remove_job s (jobId uid)
  | none => s

-- ===================== handler reply strings (mojibake) =====================

def sendNoCityMsg : String :=
  "РЈ РІР°СЃ РЅРµ РІС‹Р±СЂР°РЅ РіРѕСЂРѕРґ. РќР°РїРёС€РёС‚Рµ РЅР°Р·РІР°РЅРёРµ РіРѕСЂРѕРґР° СЃРѕРѕР±С‰РµРЅРёРµРј, РЅР°РїСЂРёРјРµСЂ: В«Р“СЂРѕРґРЅРѕВ»."

def fetchFailMsg : String :=
  "РќРµ СѓРґР°Р»РѕСЃСЊ РїРѕР»СѓС‡РёС‚СЊ РїСЂРѕРіРЅРѕР·. РџРѕРїСЂРѕР±СѓР№С‚Рµ РїРѕР·Р¶Рµ."

def usageMsg : String :=
  "РСЃРїРѕР»СЊР·РѕРІР°РЅРёРµ: /daily HH:MM\nРќР°РїСЂРёРјРµСЂ: /daily 08:30"

def dailyNeedCityMsg : String :=
  "РЎРЅР°С‡Р°Р»Р° РІС‹Р±РµСЂРёС‚Рµ РіРѕСЂРѕРґ: РїСЂРёС€Р»РёС‚Рµ РµРіРѕ РЅР°Р·РІР°РЅРёРµ СЃРѕРѕР±С‰РµРЅРёРµРј."

def dailyOkPre : String :=
  "Р“РѕС‚РѕРІРѕ! Р‘СѓРґСѓ РїСЂРёСЃС‹Р»Р°С‚СЊ РїСЂРѕРіРЅРѕР· РєР°Р¶РґС‹Р№ РґРµРЅСЊ РІ "

def dailyOkMid : String := " РїРѕ РІР°С€РµРјСѓ РІСЂРµРјРµРЅРё ("

def dailyOkSuf : String := ")."

def stopMsg : String := "Р•Р¶РµРґРЅРµРІРЅР°СЏ СЂР°СЃСЃС‹Р»РєР° РѕС‚РєР»СЋС‡РµРЅР°."

def quickNeedCityMsg : String := "РЎРЅР°С‡Р°Р»Р° РІС‹Р±РµСЂРёС‚Рµ РіРѕСЂРѕРґ."

def quickOkPre : String := "РџРѕРґРїРёСЃР°Р»! Р•Р¶РµРґРЅРµРІРЅС‹Р№ РїСЂРѕРіРЅРѕР· РІ "

def quickOkMid : String := " РїРѕ РІСЂРµРјРµРЅРё "

-- ========================= handlers (store effects) =========================

/-- Outcome of one handler invocation: the store and job table afterwards,
the reply sent (if the handler answered), and whether an exception escaped. -/
structure HandlerResult where
  store : UserStore
  sched : SchedState
  reply : Option String
  threw : Bool

/-- Embedding of the `/daily` handler `daily_cmd` (main.py lines 366-383),
after the subscription gate has passed.  The local guard only checks for
exactly two whitespace-separated parts and a colon somewhere in the second;
when it passes, the profile's `daily` field is set and saved *before*
`schedule_daily` parses the time, so a colon-containing but invalid time
mutates the store and then raises. -/
def daily_cmd (st : UserStore) (sc : SchedState) (uid : ℕ) (text : String) :
    HandlerResult :=
  let parts := pySplitWS (pyStrip text)
  if parts.length ≠ 2 ∨ ¬ pyContainsChar (parts.getD 1 "") ':' then
    ⟨st, sc, some usageMsg, false⟩
  else
    let time_str := parts.getD 1 ""
    let ep := ensure_user st uid
    if ¬ latTruthy ep.2 then ⟨ep.1, sc, some dailyNeedCityMsg, false⟩
    else
      let user2 := { ep.2 with daily := some time_str }
      let st2 := setUser ep.1 uid user2
      match user2.tz with
      | none => ⟨st2, sc, none, true⟩
      | some tzv =>
        let r := schedule_daily sc uid time_str tzv
        if r.2 then ⟨st2, r.1, none, true⟩
        else ⟨st2, r.1, some (dailyOkPre ++ time_str ++ dailyOkMid ++ tzv ++ dailyOkSuf), false⟩

/-- Embedding of the `daily:`-callback handler `quick_daily`
(main.py lines 425-437). -/
def quick_daily (st : UserStore) (sc : SchedState) (uid : ℕ) (cdata : String) :
    HandlerResult :=
  let ep := ensure_user st uid
  if ¬ latTruthy ep.2 then ⟨ep.1, sc, some quickNeedCityMsg, false⟩
  else
    match pySplitColon1 cdata with
    | [_, t] =>
      let user2 := { ep.2 with daily := some t }
      let st2 := setUser ep.1 uid user2
      match user2.tz with
      | none => ⟨st2, sc, none, true⟩
      | some tzv =>
        let r := schedule_daily sc uid t tzv
        if r.2 then ⟨st2, r.1, none, true⟩
        else ⟨st2, r.1, some (quickOkPre ++ t ++ quickOkMid ++ tzv ++ "."), false⟩
    | _ => ⟨ep.1, sc, none, true⟩

/-- Embedding of the `/stop` handler `stop_cmd` (main.py lines 385-392). -/
def stop_cmd (st : UserStore) (sc : SchedState) (uid : ℕ) : HandlerResult :=
  let sc1 := cancel_daily sc uid
  let ep := ensure_user st uid
  ⟨setUser ep.1 uid { ep.2 with daily := none }, sc1, some stopMsg, false⟩

/-- Embedding of `send_tomorrow_forecast` (main.py lines 218-230), with the
outbound fetch abstracted as its result.  The "no city" branch is decided by
the truthiness of `user.get("lat")` alone; afterwards `lat/lon/tz/city_label`
are read with direct key accesses (raising on an absent key). -/
def send_tomorrow_forecast (st : UserStore) (uid : ℕ)
    (fetchRes : Option ForecastRecord) : UserStore × Option String × Bool :=
  let ep := ensure_user st uid
  if ¬ latTruthy ep.2 then (ep.1, some sendNoCityMsg, false)
  else
    match ep.2.lat, ep.2.lon, ep.2.tz, ep.2.city_label with
    | some _, some _, some tzv, some label =>
      match fetchRes with
      | none => (ep.1, some fetchFailMsg, false)
      | some fc =>
        match format_forecast_text label tzv fc with
        | some text => (ep.1, some text, false)
        | none => (ep.1, none, true)
    | _, _, _, _ => (ep.1, none, true)

-- ============ geocode candidates and apply_city (main.py 112-119, 267-274) ==

/-- One geocoding candidate; `none` models an absent key. -/
structure Geo where
  name : Option String := none
  admin1 : Option String := none
  country_code : Option String := none
  latitude : ℚ
  longitude : ℚ
  timezone : Option String := none

/-- Python `s.strip(", ")`: drop commas and blanks from both ends. -/
def stripCommaSpace (s : String) : String :=
  String.mk (((s.toList.dropWhile (fun c => c = ',' ∨ c = ' ')).reverse.dropWhile
    (fun c => c = ',' ∨ c = ' ')).reverse)

/-- The `while ", ," in label: label = label.replace(", ,", ",")` loop, with
fuel (each pass shortens the string, so `length` passes suffice). -/
def collapseCommas : ℕ → String → String
  | 0, s => s
  | n + 1, s =>
    let t := s.replace ", ," ","
    if t = s then s else collapseCommas n t

/-- Embedding of `format_city_label`. -/
def format_city_label (g : Geo) : String :=
  let name := g.name.getD ""
  let admin := g.admin1.getD ""
  let country := g.country_code.getD ""
  let label := stripCommaSpace (pyStrip (name ++ ", " ++ admin ++ ", " ++ country))
  collapseCommas label.length label

/-- The persisted-store effect of `apply_city_and_reply` (main.py lines
267-274): all four location fields are written together in one `update`,
with `tz = geo.get("timezone", "UTC")`; the subsequent forecast fetch and
reply do not touch the store. -/
def apply_city_and_reply (st : UserStore) (uid : ℕ) (g : Geo) : UserStore :=
  let label := format_city_label g
  let ep := ensure_user st uid
  setUser ep.1 uid
    { ep.2 with
        city_label := some label
        lat := some g.latitude
        lon := some g.longitude
        tz := some (g.timezone.getD "UTC") }

-- =================== system transitions and the C8 invariant ================

/-- The store-mutating operations reachable from the dispatcher. -/
inductive BotOp where
  | ensure (uid : ℕ)
  | applyCity (uid : ℕ) (g : Geo)
  | daily (uid : ℕ) (text : String)
  | quickDaily (uid : ℕ) (cdata : String)
  | stop (uid : ℕ)

/-- The whole mutable state: persisted store plus scheduler job table. -/
structure SysState where
  store : UserStore
  sched : SchedState

def initSys : SysState := ⟨emptyStore, emptySched⟩

/-- One dispatcher step. -/
def stepSys (s : SysState) (op : BotOp) : SysState :=
  match op with
  | .ensure uid => ⟨(ensure_user s.store uid).1, s.sched⟩
  | .applyCity uid g => ⟨apply_city_and_reply s.store uid g, s.sched⟩
  | .daily uid text =>
    let r := daily_cmd s.store s.sched uid text
    ⟨r.store, r.sched⟩
  | .quickDaily uid cdata =>
    let r := quick_daily s.store s.sched uid cdata
    ⟨r.store, r.sched⟩
  | .stop uid =>
    let r := stop_cmd s.store s.sched uid
    ⟨r.store, r.sched⟩

/-- Location completeness: no location field, or all three. -/
def LocOK (p : UserProfile) : Prop :=
  (p.lat = none ∧ p.lon = none ∧ p.tz = none) ∨
  (p.lat ≠ none ∧ p.lon ≠ none ∧ p.tz ≠ none)

/-- `daily` is only set on a profile with a populated location. -/
def DailyOK (p : UserProfile) : Prop :=
  p.daily ≠ none → p.lat ≠ none ∧ p.lon ≠ none ∧ p.tz ≠ none

/-- The persisted-profile invariant of claim C8. -/
def StoreInv (st : UserStore) : Prop :=
  ∀ uid p, st uid = some p → LocOK p ∧ DailyOK p

-- ===================== scheduler job-table helper lemmas ====================

/-- The jobs stored under a user's key. -/
def jobsFor (sc : SchedState) (uid : ℕ) : List (String × JobInfo) :=
  sc.jobs.filter (fun j => j.1 = jobId uid)

theorem filter_eq_nil_of_removed (l : List (String × JobInfo)) (id : String) :
    (l.filter (fun j => j.1 ≠ id)).filter (fun j => j.1 = id) = [] := by
  induction l with
  | nil => rfl
  | cons x xs ih =>
    by_cases hx : x.1 = id
    · simp only [List.filter_cons]
      rw [if_neg (by simp [hx])]
      exact ih
    · simp only [List.filter_cons]
      rw [if_pos (by simp [hx])]
      simp only [List.filter_cons]
      rw [if_neg (by simp [hx])]
      exact ih

theorem find?_removed (l : List (String × JobInfo)) (id : String) :
    (l.filter (fun j => j.1 ≠ id)).find? (fun j => j.1 = id) = none := by
  induction l with
  | nil => rfl
  | cons x xs ih =>
    by_cases hx : x.1 = id
    · simp only [List.filter_cons]
      rw [if_neg (by simp [hx])]
      exact ih
    · simp only [List.filter_cons]
      rw [if_pos (by simp [hx])]
      rw [List.find?_cons_of_neg _ (by simp [hx])]
      exact ih

theorem find?_append_of_none {α : Type} (l₁ l₂ : List α) (p : α → Bool)
    (h : l₁.find? p = none) : (l₁ ++ l₂).find? p = l₂.find? p := by
  induction l₁ with
  | nil => rfl
  | cons x xs ih =>
    cases hx : p x
    · rw [List.cons_append, List.find?_cons_of_neg _ (by simp [hx])]
      rw [List.find?_cons_of_neg _ (by simp [hx])] at h
      exact ih h
    · rw [List.find?_cons_of_pos _ hx] at h
      cases h

theorem get_job_add (sc : SchedState) (id : String) (j : JobInfo) :
    get_job (add_job sc id j) id = some j := by
  unfold get_job add_job remove_job
  rw [find?_append_of_none _ _ _ (find?_removed _ _)]
  rw [List.find?_cons_of_pos _ (by simp)]
  rfl

theorem jobs_filter_add (sc : SchedState) (id : String) (j : JobInfo) :
    (add_job sc id j).jobs.filter (fun x => x.1 = id) = [(id, j)] := by
  show ((remove_job sc id).jobs ++ [(id, j)]).filter (fun x => x.1 = id) = [(id, j)]
  rw [List.filter_append]
  show ((sc.jobs.filter (fun j => j.1 ≠ id)).filter (fun x => x.1 = id)) ++ _ = _
  rw [filter_eq_nil_of_removed]
  simp

/-- A successful `schedule_daily` call is exactly "remove the user's key,
then append the freshly built job under that key". -/
theorem schedule_success (sc : SchedState) (uid : ℕ) (t z : String)
    (h : (schedule_daily sc uid t z).2 = false) :
    ∃ hv mv : ℤ, (schedule_daily sc uid t z).1 =
      add_job (remove_job sc (jobId uid)) (jobId uid) ⟨t, hv, mv, z⟩ := by
  unfold schedule_daily at h ⊢
  cases hp : parseHHMM t with
  | none =>
    simp only [hp] at h
    exact Bool.noConfusion h
  | some pair =>
    obtain ⟨hv, mv⟩ := pair
    simp only [hp] at h ⊢
    cases hc : cronValid hv mv with
    | false =>
      simp only [hc] at h
      simp at h
    | true =>
      refine ⟨hv, mv, ?_⟩
      simp only [hc]
      simp

-- ========================== Claims C7 and C2 ================================

/-- C7: the job table keeps at most one recurring job per user.  A
successful `schedule_daily` leaves exactly one job under the user's key and
it carries the requested time; scheduling twice in sequence (same or
different times) still leaves exactly one — the latest; and
`cancel_daily` on a user with no job returns the table unchanged. -/
theorem C7_scheduler_single_job (sc : SchedState) (uid : ℕ) (t1 t2 z1 z2 : String)
    (h1 : (schedule_daily sc uid t1 z1).2 = false)
    (h2 : (schedule_daily (schedule_daily sc uid t1 z1).1 uid t2 z2).2 = false) :
    (jobsFor (schedule_daily sc uid t1 z1).1 uid).length = 1 ∧
    (get_job (schedule_daily sc uid t1 z1).1 (jobId uid)).map JobInfo.timeStr = some t1 ∧
    (jobsFor (schedule_daily (schedule_daily sc uid t1 z1).1 uid t2 z2).1 uid).length = 1 ∧
    (get_job (schedule_daily (schedule_daily sc uid t1 z1).1 uid t2 z2).1
        (jobId uid)).map JobInfo.timeStr = some t2 ∧
    (get_job sc (jobId uid) = none → cancel_daily sc uid = sc) := by
  obtain ⟨av, bv, he1⟩ := schedule_success sc uid t1 z1 h1
  obtain ⟨cv, dv, he2⟩ := schedule_success _ uid t2 z2 h2
  refine ⟨?_, ?_, ?_, ?_, ?_⟩
  · rw [he1]
    unfold jobsFor
    rw [jobs_filter_add]
    rfl
  · rw [he1, get_job_add]
    rfl
  · rw [he2]
    unfold jobsFor
    rw [jobs_filter_add]
    rfl
  · rw [he2, get_job_add]
    rfl
  · intro hno
    unfold cancel_daily
    simp only [hno]

/-- Witness for `C7_scheduler_single_job`: schedule 08:30 then 09:00 for
user 3 starting from the empty table. -/
theorem C7_scheduler_witness :
    (jobsFor (schedule_daily emptySched 3 "08:30" "Europe/Minsk").1 3).length = 1 ∧
    (get_job (schedule_daily (schedule_daily emptySched 3 "08:30" "Europe/Minsk").1
        3 "09:00" "Europe/Minsk").1 (jobId 3)).map JobInfo.timeStr = some "09:00" ∧
    cancel_daily emptySched 3 = emptySched := by
  have h := C7_scheduler_single_job emptySched 3 "08:30" "09:00" "Europe/Minsk"
    "Europe/Minsk" (by decide) (by decide)
  exact ⟨h.1, h.2.2.2.1, h.2.2.2.2 (by decide)⟩

/-- A profile with a configured city (Grodno). -/
def c2Profile : UserProfile :=
  { city_label := some "Grodno, , BY", lat := some 53, lon := some 23
  , tz := some "Europe/Minsk", daily := none }

/-- A store holding only user 7 with the configured city. -/
def c2Store : UserStore := setUser emptyStore 7 c2Profile

/-- C2 (code-bug demonstration): `/daily ab:cd` passes the handler's local
guard (two parts, a colon in the second), so the profile's `daily` field is
set to `"ab:cd"` and persisted, and then `map(int, ...)` raises
`ValueError` inside `schedule_daily` — no usage hint is sent, the mutation
stands, and no job is installed.  This contradicts the spec's "usage hint
returned, no mutation performed" for invalid `HH:MM` arguments. -/
theorem C2_colon_guard_mutates :
    (daily_cmd c2Store emptySched 7 "/daily ab:cd").store 7 =
        some { c2Profile with daily := some "ab:cd" } ∧
    (daily_cmd c2Store emptySched 7 "/daily ab:cd").threw = true ∧
    (daily_cmd c2Store emptySched 7 "/daily ab:cd").reply = none ∧
    get_job (daily_cmd c2Store emptySched 7 "/daily ab:cd").sched (jobId 7) = none := by
  refine ⟨by decide, by decide, by decide, by decide⟩

-- =========================== Claims C9 and C10 ==============================

/-- C9: the "no location configured" precondition is truthiness of the
stored latitude alone, so a profile whose latitude is exactly 0 (on the
equator) is treated as having no city: the forecast send, `/daily` (with a
well-formed argument), and the quick-daily callback all emit their
choose-a-city guidance, leave the store and job table unchanged, and never
run the forecast pipeline. -/
theorem C9_lat_zero_no_city (st : UserStore) (sc : SchedState) (uid : ℕ)
    (p : UserProfile) (fr : Option ForecastRecord) (text cdata : String)
    (hp : st uid = some p) (hlat : p.lat = some 0)
    (hglen : (pySplitWS (pyStrip text)).length = 2)
    (hgcol : pyContainsChar ((pySplitWS (pyStrip text)).getD 1 "") ':' = true) :
    send_tomorrow_forecast st uid fr = (st, some sendNoCityMsg, false) ∧
    daily_cmd st sc uid text = ⟨st, sc, some dailyNeedCityMsg, false⟩ ∧
    quick_daily st sc uid cdata = ⟨st, sc, some quickNeedCityMsg, false⟩ := by
  have hne : p ≠ emptyProfile := by
    intro hc
    rw [hc] at hlat
    cases hlat
  have hens : ensure_user st uid = (st, p) := by
    unfold ensure_user
    rw [hp]
    show (if p = emptyProfile then (setUser st uid emptyProfile, emptyProfile)
        else (st, p)) = (st, p)
    rw [if_neg hne]
  have hlt : latTruthy p = false := by
    unfold latTruthy
    rw [hlat]
    simp
  refine ⟨?_, ?_, ?_⟩
  · unfold send_tomorrow_forecast
    rw [hens]
    simp [hlt]
  · unfold daily_cmd
    rw [if_neg (by
      push_neg
      exact ⟨hglen, hgcol⟩)]
    rw [hens]
    simp [hlt]
  · unfold quick_daily
    rw [hens]
    simp [hlt]

/-- A concrete equator profile for the C9 witness. -/
def c9Profile : UserProfile :=
  { city_label := some "Null Island", lat := some 0, lon := some 0
  , tz := some "UTC", daily := none }

/-- Witness for `C9_lat_zero_no_city` at a concrete equator profile. -/
theorem C9_lat_zero_witness :
    send_tomorrow_forecast (setUser emptyStore 4 c9Profile) 4 none =
      (setUser emptyStore 4 c9Profile, some sendNoCityMsg, false) ∧
    daily_cmd (setUser emptyStore 4 c9Profile) emptySched 4 "/daily 08:30" =
      ⟨setUser emptyStore 4 c9Profile, emptySched, some dailyNeedCityMsg, false⟩ := by
  have h := C9_lat_zero_no_city (setUser emptyStore 4 c9Profile) emptySched 4
    c9Profile none "/daily 08:30" "daily:08:00" (by decide) rfl (by decide) (by decide)
  exact ⟨h.1, h.2.1⟩

/-- C10: when a geocode candidate is accepted as the active location, a
candidate with no timezone field gets the constant `"UTC"` persisted as the
profile's timezone, and a candidate carrying a timezone has it stored
verbatim. -/
theorem C10_timezone_fallback (st : UserStore) (uid : ℕ) (g : Geo) :
    (g.timezone = none →
      (apply_city_and_reply st uid g uid).map UserProfile.tz = some (some "UTC")) ∧
    (∀ z, g.timezone = some z →
      (apply_city_and_reply st uid g uid).map UserProfile.tz = some (some z)) := by
  constructor
  · intro h
    unfold apply_city_and_reply setUser
    simp [h]
  · intro z h
    unfold apply_city_and_reply setUser
    simp [h]

/-- A candidate with no timezone field. -/
def c10GeoNoTz : Geo := { latitude := 53, longitude := 23 }

/-- A candidate carrying a timezone. -/
def c10GeoTz : Geo := { latitude := 53, longitude := 23, timezone := some "Europe/Minsk" }

/-- Witness for `C10_timezone_fallback` on concrete candidates. -/
theorem C10_timezone_witness :
    (apply_city_and_reply emptyStore 1 c10GeoNoTz 1).map UserProfile.tz =
        some (some "UTC") ∧
    (apply_city_and_reply emptyStore 1 c10GeoTz 1).map UserProfile.tz =
        some (some "Europe/Minsk") :=
  ⟨(C10_timezone_fallback emptyStore 1 c10GeoNoTz).1 rfl,
   (C10_timezone_fallback emptyStore 1 c10GeoTz).2 "Europe/Minsk" rfl⟩

-- ===================== C8: invariant preservation lemmas ====================

theorem profileOK_empty : LocOK emptyProfile ∧ DailyOK emptyProfile := by
  constructor
  · exact Or.inl ⟨rfl, rfl, rfl⟩
  · intro h
    exact absurd rfl h

theorem storeInv_setUser {st : UserStore} {uid : ℕ} {p : UserProfile}
    (h : StoreInv st) (hp : LocOK p ∧ DailyOK p) : StoreInv (setUser st uid p) := by
  intro u q hq
  unfold setUser at hq
  by_cases hu : u = uid
  · rw [if_pos hu] at hq
    injection hq with hq2
    rw [← hq2]
    exact hp
  · rw [if_neg hu] at hq
    exact h u q hq

theorem storeInv_ensure {st : UserStore} (uid : ℕ) (h : StoreInv st) :
    StoreInv (ensure_user st uid).1 := by
  unfold ensure_user
  split
  · split
    · exact storeInv_setUser h profileOK_empty
    · exact h
  · exact storeInv_setUser h profileOK_empty

theorem ensure_user_prof {st : UserStore} (uid : ℕ) (h : StoreInv st) :
    LocOK (ensure_user st uid).2 ∧ DailyOK (ensure_user st uid).2 := by
  unfold ensure_user
  split
  · rename_i p hst
    split
    · exact profileOK_empty
    · exact h uid p hst
  · exact profileOK_empty

theorem latTruthy_lat_ne {p : UserProfile} (h : latTruthy p = true) : p.lat ≠ none := by
  intro hc
  unfold latTruthy at h
  rw [hc] at h
  cases h

/-- Setting `daily` on a profile whose latitude is truthy (hence, under the
invariant, fully located) preserves the invariant. -/
theorem storeInv_set_daily {st : UserStore} (uid : ℕ) (t : String) (h : StoreInv st)
    (hl : latTruthy (ensure_user st uid).2 = true) :
    StoreInv (setUser (ensure_user st uid).1 uid
      { (ensure_user st uid).2 with daily := some t }) := by
  have hprof := ensure_user_prof uid h
  have hlat := latTruthy_lat_ne hl
  have hloc : (ensure_user st uid).2.lon ≠ none ∧ (ensure_user st uid).2.tz ≠ none := by
    rcases hprof.1 with ⟨h1, _, _⟩ | ⟨_, h2, h3⟩
    · exact absurd h1 hlat
    · exact ⟨h2, h3⟩
  apply storeInv_setUser (storeInv_ensure uid h)
  constructor
  · exact Or.inr ⟨hlat, hloc.1, hloc.2⟩
  · intro _
    exact ⟨hlat, hloc.1, hloc.2⟩

theorem storeInv_daily_cmd (st : UserStore) (sc : SchedState) (uid : ℕ) (text : String)
    (h : StoreInv st) : StoreInv (daily_cmd st sc uid text).store := by
  unfold daily_cmd
  dsimp only
  split
  · exact h
  · split
    · exact storeInv_ensure uid h
    · rename_i hg hl
      have hl' : latTruthy (ensure_user st uid).2 = true := not_not.mp hl
      have key := storeInv_set_daily uid ((pySplitWS (pyStrip text)).getD 1 "") h hl'
      split
      · exact key
      · split
        · exact key
        · exact key

theorem storeInv_quick_daily (st : UserStore) (sc : SchedState) (uid : ℕ) (cdata : String)
    (h : StoreInv st) : StoreInv (quick_daily st sc uid cdata).store := by
  unfold quick_daily
  dsimp only
  split
  · exact storeInv_ensure uid h
  · rename_i hl
    have hl' : latTruthy (ensure_user st uid).2 = true := not_not.mp hl
    split
    · split
      · exact storeInv_set_daily uid _ h hl'
      · split
        · exact storeInv_set_daily uid _ h hl'
        · exact storeInv_set_daily uid _ h hl'
    · exact storeInv_ensure uid h

theorem storeInv_stop_cmd (st : UserStore) (sc : SchedState) (uid : ℕ)
    (h : StoreInv st) : StoreInv (stop_cmd st sc uid).store := by
  unfold stop_cmd
  apply storeInv_setUser (storeInv_ensure uid h)
  constructor
  · exact (ensure_user_prof uid h).1
  · intro hc
    exact absurd rfl hc

theorem storeInv_apply_city (st : UserStore) (uid : ℕ) (g : Geo)
    (h : StoreInv st) : StoreInv (apply_city_and_reply st uid g) := by
  unfold apply_city_and_reply
  apply storeInv_setUser (storeInv_ensure uid h)
  constructor
  · exact Or.inr ⟨by simp, by simp, by simp⟩
  · intro _
    exact ⟨by simp, by simp, by simp⟩

theorem storeInv_step (s : SysState) (op : BotOp) (h : StoreInv s.store) :
    StoreInv (stepSys s op).store := by
  cases op with
  | ensure uid => exact storeInv_ensure uid h
  | applyCity uid g => exact storeInv_apply_city s.store uid g h
  | daily uid text => exact storeInv_daily_cmd s.store s.sched uid text h
  | quickDaily uid cdata => exact storeInv_quick_daily s.store s.sched uid cdata h
  | stop uid => exact storeInv_stop_cmd s.store s.sched uid h

-- =============================== Claim C8 ===================================

/-- C8: along every operation sequence from the initial empty store, every
persisted profile has either no location fields or all three of latitude,
longitude and timezone populated (locations are only written as a complete
triple by `apply_city_and_reply`), and `daily` is only ever set on a profile
whose location is populated. -/
theorem C8_store_invariant (ops : List BotOp) :
    StoreInv ((ops.foldl stepSys initSys).store) := by
  have hinit : StoreInv initSys.store := by
    intro uid p hp
    cases hp
  have hstep : ∀ (s : SysState), StoreInv s.store →
      StoreInv ((ops.foldl stepSys s).store) := by
    induction ops with
    | nil => exact fun s hs => hs
    | cons op rest ih =>
      intro s hs
      exact ih (stepSys s op) (storeInv_step s op hs)
  exact hstep initSys hinit
